import Mathlib

set_option maxRecDepth 8192

/-!
Verification of the SPI shift-register LCD driver (src/src/main.cpp).

The firmware is a straight-line protocol translator: every operation is a
sequence of SPI byte commits to a 74HC595 shift register, interleaved with
busy-wait delays.  We embed each C++ function as a pure Lean function from
its (byte) arguments to the trace of observable events it produces.  A C++
`byte` parameter is modelled as a `Nat` reduced `% 256` at function entry,
which is exactly the truncation the C++ type performs at each call.
All delays are recorded in microseconds (the Arduino `delay(n)` is
`n * 1000` microseconds).
-/

/-- An observable event of the firmware: one SPI commit of a byte to the
shift register outputs (one `SPI.transfer` bracketed by the latch strobe),
or one busy-wait delay, in microseconds. -/
inductive Event where
  | commit  : Nat → Event
  | delayUs : Nat → Event
  deriving DecidableEq, Repr

/-- The bytes committed to the shift register in a trace, in order. -/
def commits (tr : List Event) : List Nat :=
  tr.filterMap fun e =>
    match e with
    | Event.commit b => some b
    | Event.delayUs _ => none

/-- The packet after the RS bit is merged, in `send_nibble_spi`:
`byte packet = nibble; if (rs == 1) packet |= 0x01;`. -/
def rs_packet (nibble rs : Nat) : Nat :=
  if rs % 256 == 1 then (nibble % 256) ||| 0x01 else nibble % 256

/-- `send_nibble_spi(byte nibble, byte rs)` (main.cpp lines 64-97): three
commits of the packet, Enable (bit 1) low, then high, then low again, with
the 2 us pulse delays and the trailing 50 us settle delay.  The C++
`packet &= ~0x02` on a byte is `&&& 0xFD`. -/
def send_nibble_spi (nibble rs : Nat) : List Event :=
  [Event.commit (rs_packet nibble rs &&& 0xFD), Event.delayUs 2,
   Event.commit ((rs_packet nibble rs &&& 0xFD) ||| 0x02), Event.delayUs 2,
   Event.commit (((rs_packet nibble rs &&& 0xFD) ||| 0x02) &&& 0xFD),
   Event.delayUs 50]

/-- `lcd_send_data(byte data, byte rs)` (main.cpp lines 51-62):
`highNibble = data & 0xF0`, `lowNibble = (data << 4) & 0xF0`, high nibble
sent first, then the low nibble. -/
def lcd_send_data (data rs : Nat) : List Event :=
  send_nibble_spi ((data % 256) &&& 0xF0) rs ++
  send_nibble_spi (((data % 256) <<< 4) &&& 0xF0) rs

/-- `lcd_command(byte cmd)` (main.cpp lines 101-108): send with RS = 0,
then `delay(5)` (5000 us) when `cmd == 0x01 || cmd == 0x02`, else
`delayMicroseconds(50)`. -/
def lcd_command (cmd : Nat) : List Event :=
  lcd_send_data (cmd % 256) 0 ++
  (if cmd % 256 == 0x01 || cmd % 256 == 0x02 then [Event.delayUs 5000]
   else [Event.delayUs 50])

/-- `lcd_print(const char* str)` (main.cpp lines 110-114): the C string is
modelled as the list of its character byte values; `while (*str)` stops at
the first null byte, sending each preceding character with RS = 1. -/
def lcd_print : List Nat → List Event
  | [] => []
  | c :: rest =>
      if c % 256 == 0 then []
      else lcd_send_data c 1 ++ lcd_print rest

/-- The row offset table `byte offsets[] = \x7b0x00, 0x40, 0x14, 0x54\x7d;`
of `lcd_setCursor` (main.cpp line 117). -/
def offsets : List Nat := [0x00, 0x40, 0x14, 0x54]

/-- `lcd_setCursor(byte col, byte row)` (main.cpp lines 116-119):
`lcd_command(0x80 | (col + offsets[row]))`.  The array access is
unchecked in C++; an out-of-range row reads past the array, which we model
as `none` (undefined).  The `int` sum `col + offsets[row]` is truncated to
a byte only at the `lcd_command` call boundary, which `lcd_command`
performs itself. -/
def lcd_setCursor (col row : Nat) : Option (List Event) :=
  (offsets.get? (row % 256)).map fun off =>
    lcd_command (0x80 ||| ((col % 256) + off))

/-- `lcd_init()` (main.cpp lines 121-145): power-up wait, one raw 0x00
commit clearing the register, three raw 0x30 sends, one raw 0x20 send,
then the four configuration commands. -/
def lcd_init : List Event :=
  [Event.delayUs 50000,
   Event.commit 0x00,
   Event.delayUs 10000] ++
  send_nibble_spi 0x30 0 ++ [Event.delayUs 5000] ++
  send_nibble_spi 0x30 0 ++ [Event.delayUs 200] ++
  send_nibble_spi 0x30 0 ++ [Event.delayUs 200] ++
  send_nibble_spi 0x20 0 ++ [Event.delayUs 200] ++
  lcd_command 0x28 ++
  lcd_command 0x0C ++
  lcd_command 0x06 ++
  lcd_command 0x01

/-- The byte values of the C string literal "SPI Interface", including its
null terminator. -/
def msg1 : List Nat :=
  [0x53, 0x50, 0x49, 0x20, 0x49, 0x6E, 0x74, 0x65, 0x72, 0x66, 0x61,
   0x63, 0x65, 0x00]

/-- The byte values of the C string literal "By Francis", including its
null terminator. -/
def msg2 : List Nat :=
  [0x42, 0x79, 0x20, 0x46, 0x72, 0x61, 0x6E, 0x63, 0x69, 0x73, 0x00]

/-- `setup()` (main.cpp lines 30-44): the full power-on trace of the
program (the `loop()` body is empty).  Pin and SPI configuration produce
no commits. -/
def setup : List Event :=
  lcd_init ++
  lcd_print msg1 ++
  (lcd_setCursor 0 1).getD [] ++
  lcd_print msg2

/-! ### Helper lemmas on byte-level bit manipulation -/

theorem or_one_lt (x : Nat) (h : x < 256) : x ||| 1 < 256 := by
  revert x; decide

theorem rs_packet_lt (nibble rs : Nat) : rs_packet nibble rs < 256 := by
  unfold rs_packet
  split
  · exact or_one_lt _ (Nat.mod_lt _ (by norm_num))
  · exact Nat.mod_lt _ (by norm_num)

/-- The bit-level facts about the three packets built from an RS-merged
packet `q`: Enable (bit 1) is low, high, low; the data bits (mask 0xF0)
and the RS bit (mask 0x01) agree across all three; bits 2-7 (mask 0xFC)
of every packet agree with those of `q`. -/
theorem packet_bit_facts (q : Nat) (h : q < 256) :
    (q &&& 0xFD) &&& 0x02 = 0 ∧
    ((q &&& 0xFD) ||| 0x02) &&& 0x02 = 2 ∧
    (((q &&& 0xFD) ||| 0x02) &&& 0xFD) &&& 0x02 = 0 ∧
    (q &&& 0xFD) &&& 0xF0 = ((q &&& 0xFD) ||| 0x02) &&& 0xF0 ∧
    ((q &&& 0xFD) ||| 0x02) &&& 0xF0
      = (((q &&& 0xFD) ||| 0x02) &&& 0xFD) &&& 0xF0 ∧
    (q &&& 0xFD) &&& 0x01 = ((q &&& 0xFD) ||| 0x02) &&& 0x01 ∧
    ((q &&& 0xFD) ||| 0x02) &&& 0x01
      = (((q &&& 0xFD) ||| 0x02) &&& 0xFD) &&& 0x01 ∧
    (q &&& 0xFD) &&& 0xFC = q &&& 0xFC ∧
    ((q &&& 0xFD) ||| 0x02) &&& 0xFC = q &&& 0xFC ∧
    (((q &&& 0xFD) ||| 0x02) &&& 0xFD) &&& 0xFC = q &&& 0xFC := by
  revert q; decide

theorem commits_send_nibble (nibble rs : Nat) :
    commits (send_nibble_spi nibble rs) =
      [rs_packet nibble rs &&& 0xFD,
       (rs_packet nibble rs &&& 0xFD) ||| 0x02,
       ((rs_packet nibble rs &&& 0xFD) ||| 0x02) &&& 0xFD] := rfl

/-!  ### Claim theorems -/

/-- Claim C1: for every 8-bit value and RS flag, `send_nibble_spi` commits
exactly three packets, in order: the first with Enable (bit 1) clear, the
second with Enable set, the third with Enable clear again, and all three
carry identical data bits (mask 0xF0) and an identical RS bit (bit 0). -/
theorem claim_C1_nibble_three_packets (nibble rs : Nat) :
    ∃ p1 p2 p3,
      commits (send_nibble_spi nibble rs) = [p1, p2, p3] ∧
      p1 &&& 0x02 = 0 ∧ p2 &&& 0x02 ≠ 0 ∧ p3 &&& 0x02 = 0 ∧
      p1 &&& 0xF0 = p2 &&& 0xF0 ∧ p2 &&& 0xF0 = p3 &&& 0xF0 ∧
      p1 &&& 0x01 = p2 &&& 0x01 ∧ p2 &&& 0x01 = p3 &&& 0x01 := by
  obtain ⟨h1, h2, h3, h4, h5, h6, h7, _, _, _⟩ :=
    packet_bit_facts (rs_packet nibble rs) (rs_packet_lt nibble rs)
  refine ⟨_, _, _, commits_send_nibble nibble rs, h1, ?_, h3, h4, h5, h6, h7⟩
  rw [h2]; norm_num

/-- The byte-to-nibble split round-trip: reassembling the data bits of the
two nibble packets recovers the original byte. -/
theorem recon_byte (b : Nat) (h : b < 256) :
    ((b &&& 0xF0) &&& 0xF0) ||| ((((b <<< 4) &&& 0xF0) &&& 0xF0) >>> 4) = b := by
  revert b; decide

/-- Claim C2: `lcd_send_data` splits a byte into the high-nibble packet
`b &&& 0xF0` and the low-nibble packet `(b <<< 4) &&& 0xF0`, transmits the
high nibble first, and the reconstruction
`(hi &&& 0xF0) ||| ((lo &&& 0xF0) >>> 4)` equals `b` exactly. -/
theorem claim_C2_nibble_split (b rs : Nat) (h : b < 256) :
    lcd_send_data b rs =
      send_nibble_spi (b &&& 0xF0) rs ++
      send_nibble_spi ((b <<< 4) &&& 0xF0) rs ∧
    ((b &&& 0xF0) &&& 0xF0) ||| ((((b <<< 4) &&& 0xF0) &&& 0xF0) >>> 4) = b := by
  refine ⟨?_, recon_byte b h⟩
  unfold lcd_send_data
  rw [Nat.mod_eq_of_lt h]

theorem claim_C2_witness :
    0xAB < 256 ∧
    (lcd_send_data 0xAB 1 =
      send_nibble_spi (0xAB &&& 0xF0) 1 ++
      send_nibble_spi ((0xAB <<< 4) &&& 0xF0) 1 ∧
    ((0xAB &&& 0xF0) &&& 0xF0) |||
      ((((0xAB <<< 4) &&& 0xF0) &&& 0xF0) >>> 4) = 0xAB) :=
  ⟨by norm_num, claim_C2_nibble_split 0xAB 1 (by norm_num)⟩

/-- Claim C3: the delay recorded after a command transmission is the long
5000 us delay (above the 1520 us = 1.52 ms threshold) exactly when the
command byte is 0x01 or 0x02; every other command byte gets only the
short 50 us settle delay.  The timing class is a function of the command
value alone. -/
theorem claim_C3_command_timing (cmd : Nat) (h : cmd < 256) :
    ∃ d, lcd_command cmd = lcd_send_data cmd 0 ++ [Event.delayUs d] ∧
      ((cmd = 0x01 ∨ cmd = 0x02) → d = 5000) ∧
      (¬(cmd = 0x01 ∨ cmd = 0x02) → d = 50) ∧
      (1520 ≤ d ↔ (cmd = 0x01 ∨ cmd = 0x02)) := by
  by_cases hc : cmd = 0x01 ∨ cmd = 0x02
  · refine ⟨5000, ?_, fun _ => rfl, fun hn => absurd hc hn,
      ⟨fun _ => hc, fun _ => by norm_num⟩⟩
    rcases hc with h1 | h1 <;> subst h1 <;> decide
  · refine ⟨50, ?_, fun hy => absurd hy hc, fun _ => rfl,
      ⟨fun hle => absurd hle (by norm_num), fun hy => absurd hy hc⟩⟩
    push_neg at hc
    unfold lcd_command
    rw [Nat.mod_eq_of_lt h]
    have h1 : (cmd == 0x01) = false := by simp [hc.1]
    have h2 : (cmd == 0x02) = false := by simp [hc.2]
    rw [h1, h2]
    simp

theorem claim_C3_witness :
    (0x01 : Nat) < 256 ∧
    (∃ d, lcd_command 0x01 = lcd_send_data 0x01 0 ++ [Event.delayUs d] ∧
      (((0x01 : Nat) = 0x01 ∨ (0x01 : Nat) = 0x02) → d = 5000) ∧
      (¬((0x01 : Nat) = 0x01 ∨ (0x01 : Nat) = 0x02) → d = 50) ∧
      (1520 ≤ d ↔ ((0x01 : Nat) = 0x01 ∨ (0x01 : Nat) = 0x02))) :=
  ⟨by norm_num, claim_C3_command_timing 0x01 (by norm_num)⟩

/-- Claim C4: the initialization trace is, in strict order: power-up wait
and register clear, three raw sends of nibble byte 0x30 (data value 0x3
in the high nibble), one raw send of 0x20 (value 0x2), then the commands
0x28, 0x0C, 0x06, 0x01 through the normal command path; the gaps between
the three 0x30 sends are decreasing, the first being 5000 us (>= 5 ms)
and the next 200 us (>= 100 us); the final command 0x01 is followed by
the long 5000 us delay. -/
theorem claim_C4_init_sequence :
    lcd_init =
      [Event.delayUs 50000, Event.commit 0x00, Event.delayUs 10000] ++
      send_nibble_spi 0x30 0 ++ [Event.delayUs 5000] ++
      send_nibble_spi 0x30 0 ++ [Event.delayUs 200] ++
      send_nibble_spi 0x30 0 ++ [Event.delayUs 200] ++
      send_nibble_spi 0x20 0 ++ [Event.delayUs 200] ++
      lcd_command 0x28 ++ lcd_command 0x0C ++
      lcd_command 0x06 ++ lcd_command 0x01 ∧
    0x30 >>> 4 = 0x3 ∧ 0x20 >>> 4 = 0x2 ∧
    (5000 : Nat) ≥ 5000 ∧ (200 : Nat) ≥ 100 ∧ (200 : Nat) < 5000 ∧
    lcd_command 0x01 = lcd_send_data 0x01 0 ++ [Event.delayUs 5000] ∧
    (1520 : Nat) ≤ 5000 :=
  ⟨rfl, rfl, rfl, by norm_num, by norm_num, by norm_num, by decide,
   by norm_num⟩

/-- Claim C5: for every in-range row, `lcd_setCursor` issues exactly one
command, the byte `0x80 ||| (col + offsets[row])` with the fixed offset
table [0x00, 0x40, 0x14, 0x54]; in particular `lcd_setCursor 5 1` issues
command byte 0xC5. -/
theorem claim_C5_setCursor (col row : Nat) (hc : col < 256) (hr : row < 4) :
    (∃ off, offsets.get? row = some off ∧
       lcd_setCursor col row = some (lcd_command (0x80 ||| (col + off)))) ∧
    lcd_setCursor 5 1 = some (lcd_command 0xC5) := by
  constructor
  · interval_cases row <;>
      exact ⟨_, rfl, by simp [lcd_setCursor, offsets, Nat.mod_eq_of_lt hc]⟩
  · decide

theorem claim_C5_witness :
    (5 : Nat) < 256 ∧ (1 : Nat) < 4 ∧
    ((∃ off, offsets.get? 1 = some off ∧
       lcd_setCursor 5 1 = some (lcd_command (0x80 ||| (5 + off)))) ∧
     lcd_setCursor 5 1 = some (lcd_command 0xC5)) :=
  ⟨by norm_num, by norm_num, claim_C5_setCursor 5 1 (by norm_num) (by norm_num)⟩

/-- Claim C6: `lcd_print` issues exactly one data transmission (RS = 1)
per character before the first null terminator, in order, and stops at
the terminator; `lcd_print` on the bytes of "AB" issues exactly the two
data transmissions for 0x41 then 0x42, whose committed packets all carry
RS bit 1. -/
theorem claim_C6_printString :
    (∀ s : List Nat, lcd_print s =
       (s.takeWhile fun c => !(c % 256 == 0)).flatMap
         fun c => lcd_send_data c 1) ∧
    lcd_print [0x41, 0x42, 0x00] =
      lcd_send_data 0x41 1 ++ lcd_send_data 0x42 1 ∧
    (commits (lcd_send_data 0x41 1)).all (fun p => p &&& 0x01 == 1) = true ∧
    (commits (lcd_send_data 0x42 1)).all (fun p => p &&& 0x01 == 1) = true := by
  refine ⟨?_, by decide, by decide, by decide⟩
  intro s
  induction s with
  | nil => rfl
  | cons c rest ih =>
      cases hc : (c % 256 == 0)
      · simp [lcd_print, hc, List.takeWhile_cons, ih]
      · simp [lcd_print, hc, List.takeWhile_cons]

/-- Reducing the data byte mod 256 leaves the trace unchanged, because the
C++ `byte` parameter already truncates it. -/
theorem lcd_send_data_mod (data rs : Nat) :
    lcd_send_data data rs = lcd_send_data (data % 256) rs := by
  have hm : data % 256 % 256 = data % 256 :=
    Nat.mod_eq_of_lt (Nat.mod_lt _ (by norm_num))
  unfold lcd_send_data
  rw [hm]

/-- Evaluation of the RS-bit property over all 256 byte values. -/
theorem lcd_send_data_rs_eval (d : Nat) (h : d < 256) :
    (commits (lcd_send_data d 1)).length = 6 ∧
    (commits (lcd_send_data d 1)).all (fun p => p &&& 0x01 == 1) = true ∧
    (commits (lcd_send_data d 0)).length = 6 ∧
    (commits (lcd_send_data d 0)).all (fun p => p &&& 0x01 == 0) = true := by
  revert d; decide

/-- Claim C7: every byte transmission commits six packets (two nibbles of
three), and the RS flag is OR-ed into bit 0 of each: with flag 1 all six
packets have bit 0 set, with flag 0 all six have bit 0 clear. -/
theorem claim_C7_rs_bit (data : Nat) :
    (commits (lcd_send_data data 1)).length = 6 ∧
    (commits (lcd_send_data data 1)).all (fun p => p &&& 0x01 == 1) = true ∧
    (commits (lcd_send_data data 0)).length = 6 ∧
    (commits (lcd_send_data data 0)).all (fun p => p &&& 0x01 == 0) = true := by
  rw [lcd_send_data_mod data 1, lcd_send_data_mod data 0]
  exact lcd_send_data_rs_eval (data % 256) (Nat.mod_lt _ (by norm_num))

/-- Claim C8: two consecutive `lcd_command 0x01` calls produce two
identical packet-and-delay sequences, each ending in the long 5000 us
delay; the sequence a command produces is a pure function of the command
byte, so prior operations cannot influence it (the appended prefix leaves
it unchanged). -/
theorem claim_C8_clear_idempotent :
    ∃ seg, lcd_command 0x01 ++ lcd_command 0x01 = seg ++ seg ∧
      (∃ pre, seg = pre ++ [Event.delayUs 5000]) ∧
      (∀ prior : List Event,
        prior ++ lcd_command 0x01 = prior ++ seg) :=
  ⟨lcd_command 0x01, rfl, ⟨lcd_send_data 0x01 0, by decide⟩,
   fun _ => rfl⟩

/-- Claim C9: `lcd_setCursor` validates neither argument: every row below
the table length 4 yields a defined command, while every byte row of 4 or
more reads past the offset table, modelled as an undefined (`none`)
result, with no check and no reported error. -/
theorem claim_C9_no_bounds_check (col row : Nat) (hb : row < 256) :
    (row < 4 → ∃ t, lcd_setCursor col row = some t) ∧
    (4 ≤ row → lcd_setCursor col row = none) := by
  have hm : row % 256 = row := Nat.mod_eq_of_lt hb
  constructor
  · intro h4
    have hg : offsets.get? row = some (offsets.getD row 0) := by
      interval_cases row <;> rfl
    exact ⟨lcd_command (0x80 ||| ((col % 256) + offsets.getD row 0)),
      by unfold lcd_setCursor; rw [hm, hg]; rfl⟩
  · intro h4
    have hg : offsets.get? row = none := by
      rw [List.get?_eq_none]
      simpa [offsets] using h4
    unfold lcd_setCursor
    rw [hm, hg]
    rfl

theorem claim_C9_witness :
    ((2 : Nat) < 256 ∧
      ((2 < 4 → ∃ t, lcd_setCursor 0 2 = some t) ∧
       (4 ≤ 2 → lcd_setCursor 0 2 = none))) ∧
    ((5 : Nat) < 256 ∧
      ((5 < 4 → ∃ t, lcd_setCursor 0 5 = some t) ∧
       (4 ≤ 5 → lcd_setCursor 0 5 = none))) :=
  ⟨⟨by norm_num, claim_C9_no_bounds_check 0 2 (by norm_num)⟩,
   ⟨by norm_num, claim_C9_no_bounds_check 0 5 (by norm_num)⟩⟩

/-- Merging the RS bit never touches bits 2-7. -/
theorem or_one_fc (x : Nat) (h : x < 256) :
    (x ||| 1) &&& 0xFC = x &&& 0xFC := by
  revert x; decide

theorem rs_packet_fc (nibble rs : Nat) :
    rs_packet nibble rs &&& 0xFC = (nibble % 256) &&& 0xFC := by
  unfold rs_packet
  split
  · exact or_one_fc _ (Nat.mod_lt _ (by norm_num))
  · rfl

/-- `send_nibble_spi` only discriminates on whether `rs` is the byte 1. -/
theorem send_nibble_rs_cases (n r : Nat) :
    send_nibble_spi n r =
      if r % 256 == 1 then send_nibble_spi n 1 else send_nibble_spi n 0 := by
  unfold send_nibble_spi rs_packet
  cases hr : (r % 256 == 1) <;> simp

theorem lcd_send_data_rs_cases (d r : Nat) :
    lcd_send_data d r =
      if r % 256 == 1 then lcd_send_data d 1 else lcd_send_data d 0 := by
  unfold lcd_send_data
  rw [send_nibble_rs_cases ((d % 256) &&& 0xF0) r,
      send_nibble_rs_cases (((d % 256) <<< 4) &&& 0xF0) r]
  cases hr : (r % 256 == 1) <;> simp

/-- Evaluation of the unused-bits property over all 256 byte values. -/
theorem lcd_send_data_bits23 (d : Nat) (h : d < 256) :
    (commits (lcd_send_data d 0)).all (fun p => p &&& 0x0C == 0) = true ∧
    (commits (lcd_send_data d 1)).all (fun p => p &&& 0x0C == 0) = true := by
  revert d; decide

/-- Claim C10: no committed packet ever drives the two unused register
lines (bits 2 and 3): `send_nibble_spi` only modifies bits 0 and 1 of
its packet (bits 2-7, mask 0xFC, always agree with the input nibble),
every `lcd_send_data` packet has bits 2-3 clear because the nibbles are
masked with 0xF0, and so do all packets of `lcd_init` and of the whole
program trace `setup`. -/
theorem claim_C10_unused_bits :
    (∀ nibble rs : Nat,
       (commits (send_nibble_spi nibble rs)).all
         (fun p => p &&& 0xFC == (nibble % 256) &&& 0xFC) = true) ∧
    (∀ data rs : Nat,
       (commits (lcd_send_data data rs)).all
         (fun p => p &&& 0x0C == 0) = true) ∧
    (commits lcd_init).all (fun p => p &&& 0x0C == 0) = true ∧
    (commits setup).all (fun p => p &&& 0x0C == 0) = true := by
  refine ⟨?_, ?_, by decide, by decide⟩
  · intro nibble rs
    obtain ⟨_, _, _, _, _, _, _, h8, h9, h10⟩ :=
      packet_bit_facts (rs_packet nibble rs) (rs_packet_lt nibble rs)
    rw [commits_send_nibble]
    simp only [List.all_cons, List.all_nil, Bool.and_true]
    rw [h8, h9, h10, rs_packet_fc nibble rs]
    simp
  · intro data rs
    rw [lcd_send_data_rs_cases data rs]
    cases hr : (rs % 256 == 1)
    · simp only [Bool.false_eq_true, if_false]
      rw [lcd_send_data_mod data 0]
      exact (lcd_send_data_bits23 (data % 256)
        (Nat.mod_lt _ (by norm_num))).1
    · simp only [if_true]
      rw [lcd_send_data_mod data 1]
      exact (lcd_send_data_bits23 (data % 256)
        (Nat.mod_lt _ (by norm_num))).2
